import Mathlib

/-!
Verification of the Nephro-App submission pipeline (src/app.py).

The program is a single-screen form: it builds a fixed-schema feature
record from nine clinical inputs, scores it with a loaded model, maps the
probability to a risk tier, optionally renders an explanation, and
optionally appends a case-log row to a remote store.  We embed the
pipeline shallowly: probabilities are exact rationals, the model is a
scoring function together with an optional declared feature order, and
every user-visible action or store write is recorded as an explicit
effect so that frame and error-handling properties are statements about
the produced effect list.
-/

namespace NephroApp

/-- The nine clinical inputs of one form submission
(the variables cr, delta_cr, k, bicarb, bun, ph, uo, fluid, enceph in app.py). -/
structure Observation where
  cr : ℚ
  delta_cr : ℚ
  k : ℚ
  bicarb : ℚ
  bun : ℚ
  ph : ℚ
  uo : ℚ
  fluid : ℤ
  enceph : Bool
deriving DecidableEq, Repr

/-- The three-level risk category produced by the if/elif/else branch. -/
inductive RiskTier where
  | HIGH
  | MODERATE
  | LOW
deriving DecidableEq, Repr

/-- The risk tier branch of app.py lines 98-103:
HIGH when risk_prob is above 0.75, MODERATE when above 0.40, LOW otherwise. -/
def riskTier (p : ℚ) : RiskTier :=
  if p > 0.75 then RiskTier.HIGH
  else if p > 0.40 then RiskTier.MODERATE
  else RiskTier.LOW

/-- Round a rational to the nearest integer, ties to even
(the rounding used by Python round and by string formatting). -/
def roundHalfEven (q : ℚ) : ℤ :=
  let f : ℤ := ⌊q⌋
  let frac : ℚ := q - (f : ℚ)
  if frac < 1/2 then f
  else if frac > 1/2 then f + 1
  else if f % 2 = 0 then f else f + 1

/-- Python round(x, 3): round to three decimal places, ties to even. -/
def round3 (q : ℚ) : ℚ := (roundHalfEven (q * 1000) : ℚ) / 1000

/-- Python format {:.1%}: multiply by 100, render with one decimal digit
and a trailing percent sign (this is the metric value string of line 96). -/
def formatPercent1 (p : ℚ) : String :=
  let n : ℤ := roundHalfEven (p * 1000)
  if n < 0 then
    "-" ++ toString ((-n) / 10) ++ "." ++ toString ((-n) % 10) ++ "%"
  else
    toString (n / 10) ++ "." ++ toString (n % 10) ++ "%"

/-- The single-row DataFrame of app.py lines 77-82, as an ordered list of
named columns; the encephalopathy checkbox is encoded 1 if checked else 0. -/
def input_data (o : Observation) : List (String × ℚ) :=
  [("creatinine", o.cr), ("delta_Cr_24h", o.delta_cr), ("potassium", o.k),
   ("bicarbonate", o.bicarb), ("bun", o.bun), ("ph_level", o.ph),
   ("fluid_overload_grade", (o.fluid : ℚ)),
   ("uremic_encephalopathy", if o.enceph then 1 else 0),
   ("urine_output_24h", o.uo)]

/-- Column selection input_data[names]: defined only when every requested
name is a column of the frame (otherwise pandas raises, which the caller
catches). -/
def reorderColumns (df : List (String × ℚ)) (names : List String) :
    Option (List (String × ℚ)) :=
  if names.all (fun n => (df.lookup n).isSome) then
    some (names.map (fun n => (n, (df.lookup n).getD 0)))
  else none

/-- The try/except of app.py lines 85-88: when the model exposes
feature_names_in_, reindex the frame by it; on any failure (no such
attribute, or a missing column) keep the frame unchanged. -/
def applyReorder (df : List (String × ℚ)) (names : Option (List String)) :
    List (String × ℚ) :=
  match names with
  | none => df
  | some ns => (reorderColumns df ns).getD df

/-- The loaded model: an optional declared input column order
(feature_names_in_) and the scoring map predict_proba(df)[0][1]. -/
structure Model where
  feature_names : Option (List String)
  score : List (String × ℚ) → ℚ

/-- The probability the pipeline computes for an observation:
score the (possibly reordered) feature frame. -/
def predicted_prob (m : Model) (o : Observation) : ℚ :=
  m.score (applyReorder (input_data o) m.feature_names)

/-- One primitive cell of a case-log row: the remote store receives flat
rows of strings and numbers. -/
inductive Cell where
  | str (s : String)
  | num (q : ℚ)
  | int (n : ℤ)
deriving DecidableEq, Repr

/-- The log_row list of app.py lines 136-140, in source order. -/
def log_row (timestamp : String) (o : Observation) (risk_prob : ℚ) : List Cell :=
  [Cell.str timestamp, Cell.num o.cr, Cell.num o.delta_cr, Cell.num o.k,
   Cell.num o.bicarb, Cell.num o.bun, Cell.num o.ph, Cell.int o.fluid,
   Cell.int (if o.enceph then 1 else 0), Cell.num o.uo,
   Cell.num (round3 risk_prob)]

/-- The row layout asserted by the spec sentence for C2, stated in its
words: a timestamp string, then SEVEN numeric clinical fields, then the
fluid-overload grade as an integer, encephalopathy presence as a 0/1
integer, the urine output, and the probability rounded to 3 decimals. -/
def claimedLogRowLayout (o : Observation) (p : ℚ) (row : List Cell) : Prop :=
  ∃ ts n1 n2 n3 n4 n5 n6 n7,
    row = [Cell.str ts, Cell.num n1, Cell.num n2, Cell.num n3, Cell.num n4,
           Cell.num n5, Cell.num n6, Cell.num n7, Cell.int o.fluid,
           Cell.int (if o.enceph then 1 else 0), Cell.num o.uo,
           Cell.num (round3 p)]

/-- A user-visible action or store write performed while handling one
submission. -/
inductive Effect where
  | showMetric (label value : String)
  | showError (msg : String)
  | showWarning (msg : String)
  | showSuccess (msg : String)
  | showPlot
  | appendRow (row : List Cell)
  | showToast (msg : String)
deriving DecidableEq, Repr

/-- The environment of one submission: the formatted wall-clock timestamp,
and whether the two fallible external calls (SHAP explanation, remote
store append) raise. -/
structure Env where
  timestamp : String
  shapFails : Bool
  dbFails : Bool
deriving DecidableEq, Repr

/-- The form state at submission: the observation and the save checkbox. -/
structure SubmitInput where
  obs : Observation
  save_data : Bool
deriving DecidableEq, Repr

/-- The tier message emitted by the branch of lines 98-103. -/
def tierMessage (risk_prob : ℚ) : Effect :=
  match riskTier risk_prob with
  | RiskTier.HIGH => Effect.showError "HIGH RISK: Consider Dialysis Initiation"
  | RiskTier.MODERATE => Effect.showWarning "MODERATE RISK: Monitor Closely"
  | RiskTier.LOW => Effect.showSuccess "LOW RISK: Conservative Management"

/-- add_to_database of app.py lines 26-37: on success append the row and
return True; on any exception show an error and return False. -/
def add_to_database (dbFails : Bool) (row : List Cell) : List Effect × Bool :=
  if dbFails then ([Effect.showError "Database Error"], false)
  else ([Effect.appendRow row], true)

/-- The submission handler of app.py lines 74-146: with no model only an
error is shown; otherwise build the frame, reorder, score, show the
metric and tier, attempt the explanation (a warning on failure), and when
saving is requested build log_row and call add_to_database, toasting on
success. -/
def runSubmission (model : Option Model) (env : Env) (inp : SubmitInput) :
    List Effect :=
  match model with
  | none => [Effect.showError "AI Brain (Model) not found. Check GitHub files."]
  | some m =>
    let risk_prob := predicted_prob m inp.obs
    let shapEffs :=
      if env.shapFails then [Effect.showWarning "Could not generate explanation graph"]
      else [Effect.showPlot]
    let saveEffs :=
      if inp.save_data then
        let row := log_row env.timestamp inp.obs risk_prob
        let r := add_to_database env.dbFails row
        r.1 ++ (if r.2 then [Effect.showToast "Saved for training!"] else [])
      else []
    [Effect.showMetric "Dialysis Probability" (formatPercent1 risk_prob),
     tierMessage risk_prob] ++ shapEffs ++ saveEffs

/-- The fixed observation of the spec test vector:
cr 2.0, delta 0.0, k 4.5, bicarb 24.0, bun 40.0, ph 7.4, uo 1500.0,
fluid 0, enceph false. -/
def obs0 : Observation :=
  ⟨2, 0, 9/2, 24, 40, 37/5, 1500, 0, false⟩

/-- A deterministic stub model: no declared feature order, constant score. -/
def stubModel (q : ℚ) : Model :=
  ⟨none, fun _ => q⟩

/-- A concrete benign environment for test vectors. -/
def env0 : Env := ⟨"2026-01-01 00:00:00", false, false⟩


/-- C1: the risk tier classifier maps a probability p to HIGH when
p is above 0.75, MODERATE when above 0.40 and at most 0.75, and LOW
otherwise; at the boundaries, 0.40 yields LOW and 0.75 yields MODERATE. -/
theorem C1_risk_tier_classifier (p : ℚ) :
    (0 ≤ p → p ≤ 2/5 → riskTier p = RiskTier.LOW) ∧
    (2/5 < p → p ≤ 3/4 → riskTier p = RiskTier.MODERATE) ∧
    (3/4 < p → p ≤ 1 → riskTier p = RiskTier.HIGH) ∧
    riskTier (2/5) = RiskTier.LOW ∧ riskTier (3/4) = RiskTier.MODERATE := by
  refine ⟨?_, ?_, ?_, ?_, ?_⟩
  · intro h0 h1
    unfold riskTier
    split_ifs with ha hb
    · exfalso; norm_num at ha; linarith
    · exfalso; norm_num at hb; linarith
    · rfl
  · intro h0 h1
    unfold riskTier
    split_ifs with ha hb
    · exfalso; norm_num at ha; linarith
    · rfl
    · exfalso; norm_num at hb; linarith
  · intro h0 h1
    unfold riskTier
    split_ifs with ha hb
    · rfl
    · exfalso; norm_num at ha; linarith
    · exfalso; norm_num at ha; linarith
  · norm_num [riskTier]
  · norm_num [riskTier]

/-- Witness for C1 at the concrete probability one half: tier MODERATE. -/
theorem C1_witness : riskTier (1/2) = RiskTier.MODERATE :=
  (C1_risk_tier_classifier (1/2)).2.1 (by norm_num) (by norm_num)

/-- C9: the tier branch is total over every rational probability, one of
the three tiers is always produced, values above 1 classify HIGH and
negative values classify LOW. -/
theorem C9_tier_total (p : ℚ) :
    (riskTier p = RiskTier.HIGH ∨ riskTier p = RiskTier.MODERATE ∨
      riskTier p = RiskTier.LOW) ∧
    (1 < p → riskTier p = RiskTier.HIGH) ∧
    (p < 0 → riskTier p = RiskTier.LOW) := by
  refine ⟨?_, ?_, ?_⟩
  · unfold riskTier; split_ifs <;> simp
  · intro h
    unfold riskTier
    rw [if_pos (by norm_num; linarith)]
  · intro h
    unfold riskTier
    rw [if_neg (by norm_num; linarith), if_neg (by norm_num; linarith)]

/-- Witness for C9 at the concrete out-of-range probability 2: tier HIGH. -/
theorem C9_witness : riskTier 2 = RiskTier.HIGH :=
  (C9_tier_total 2).2.1 (by norm_num)


/-- C3: on the fixed observation with a stub model scoring 0.83 the
pipeline shows the metric string 83.0 percent and the HIGH tier message;
a stub scoring 0.50 gives MODERATE and 0.10 gives LOW. -/
theorem C3_stub_model_outputs :
    runSubmission (some (stubModel (83/100))) env0 ⟨obs0, false⟩ =
      [Effect.showMetric "Dialysis Probability" "83.0%",
       Effect.showError "HIGH RISK: Consider Dialysis Initiation",
       Effect.showPlot] ∧
    riskTier (predicted_prob (stubModel (83/100)) obs0) = RiskTier.HIGH ∧
    riskTier (predicted_prob (stubModel (1/2)) obs0) = RiskTier.MODERATE ∧
    riskTier (predicted_prob (stubModel (1/10)) obs0) = RiskTier.LOW := by
  refine ⟨?_, ?_, ?_, ?_⟩
  · show runSubmission _ _ _ = _
    unfold runSubmission
    norm_num [env0, predicted_prob, stubModel, applyReorder, tierMessage,
      riskTier, formatPercent1, roundHalfEven]
    rfl
  · norm_num [predicted_prob, stubModel, applyReorder, riskTier]
  · norm_num [predicted_prob, stubModel, applyReorder, riskTier]
  · norm_num [predicted_prob, stubModel, applyReorder, riskTier]

/-- C4: when the model handle is absent, every submission produces only
the model-not-found error effect: no metric, no row append, no
explanation attempt, and the handler is a total function, so no crash. -/
theorem C4_model_unavailable (env : Env) (inp : SubmitInput) :
    runSubmission none env inp =
      [Effect.showError "AI Brain (Model) not found. Check GitHub files."] := rfl

/-- C10: the encephalopathy boolean reaches the feature frame as the
rational 1 or 0 and the log row as the integer 1 or 0, and no other
encoding is possible. -/
theorem C10_enceph_encoding (o : Observation) (ts : String) (p : ℚ) :
    (input_data o).lookup "uremic_encephalopathy" =
      some (if o.enceph then (1 : ℚ) else 0) ∧
    (log_row ts o p).get? 8 = some (Cell.int (if o.enceph then 1 else 0)) ∧
    ((if o.enceph then (1 : ℚ) else 0) = 0 ∨ (if o.enceph then (1 : ℚ) else 0) = 1) ∧
    ((if o.enceph then (1 : ℤ) else 0) = 0 ∨ (if o.enceph then (1 : ℤ) else 0) = 1) := by
  refine ⟨?_, ?_, ?_, ?_⟩
  · cases h : o.enceph <;> simp [h, input_data, List.lookup]
  · cases h : o.enceph <;> simp [h, log_row]
  · cases h : o.enceph <;> simp [h]
  · cases h : o.enceph <;> simp [h]


/-- C2 counterexample: at a concrete submission, the appended row does
not have the layout the claim states (a timestamp followed by SEVEN
numeric clinical fields before the fluid-overload integer): the actual
row has 11 cells while the claimed layout has 12. -/
theorem C2_counterexample :
    ¬ claimedLogRowLayout obs0 (83/100)
        (log_row "2026-01-01 00:00:00" obs0 (83/100)) := by
  rintro ⟨ts, n1, n2, n3, n4, n5, n6, n7, h⟩
  have hl := congrArg List.length h
  simp [log_row] at hl

/-- C2 amended: every row appended by a submission is exactly the
timestamp string, the SIX numeric clinical fields creatinine, delta
creatinine, potassium, bicarbonate, BUN and pH in fixed order, the
fluid-overload grade as an integer, encephalopathy as a 0/1 integer, the
urine output, and the probability rounded to 3 decimals. -/
theorem C2_log_row_amended (m : Model) (env : Env) (inp : SubmitInput)
    (row : List Cell)
    (h : Effect.appendRow row ∈ runSubmission (some m) env inp) :
    row = [Cell.str env.timestamp, Cell.num inp.obs.cr, Cell.num inp.obs.delta_cr,
      Cell.num inp.obs.k, Cell.num inp.obs.bicarb, Cell.num inp.obs.bun,
      Cell.num inp.obs.ph, Cell.int inp.obs.fluid,
      Cell.int (if inp.obs.enceph then 1 else 0), Cell.num inp.obs.uo,
      Cell.num (round3 (predicted_prob m inp.obs))] := by
  unfold runSubmission at h
  cases ht : riskTier (predicted_prob m inp.obs) <;>
    cases hs : inp.save_data <;> cases hf : env.shapFails <;>
    cases hd : env.dbFails <;>
    simp [ht, hs, hf, hd, add_to_database, tierMessage, log_row] at h <;>
    simp [h]

/-- Witness for C2 amended at a concrete saved submission. -/
theorem C2_witness :
    log_row env0.timestamp obs0 (83/100) =
      [Cell.str env0.timestamp, Cell.num obs0.cr, Cell.num obs0.delta_cr,
       Cell.num obs0.k, Cell.num obs0.bicarb, Cell.num obs0.bun,
       Cell.num obs0.ph, Cell.int obs0.fluid,
       Cell.int (if obs0.enceph then 1 else 0), Cell.num obs0.uo,
       Cell.num (round3 (predicted_prob (stubModel (83/100)) obs0))] :=
  C2_log_row_amended (stubModel (83/100)) env0 ⟨obs0, true⟩ _ (by
    simp [runSubmission, env0, add_to_database, predicted_prob, stubModel, applyReorder])


/-- C5: with saving enabled and the store append failing, the save call
returns failure, a database error is reported, no row is appended, and
the displayed metric and tier effects are exactly those of the
successful-store run. -/
theorem C5_db_failure_isolated (m : Model) (env : Env) (inp : SubmitInput)
    (hsave : inp.save_data = true) (hdb : env.dbFails = true) :
    (add_to_database env.dbFails
        (log_row env.timestamp inp.obs (predicted_prob m inp.obs))).2 = false ∧
    Effect.showError "Database Error" ∈ runSubmission (some m) env inp ∧
    (∀ row, Effect.appendRow row ∉ runSubmission (some m) env inp) ∧
    (runSubmission (some m) env inp).take 2 =
      [Effect.showMetric "Dialysis Probability"
         (formatPercent1 (predicted_prob m inp.obs)),
       tierMessage (predicted_prob m inp.obs)] ∧
    (runSubmission (some m) env inp).take 2 =
      (runSubmission (some m) ⟨env.timestamp, env.shapFails, false⟩ inp).take 2 := by
  refine ⟨by simp [hdb, add_to_database], ?_, ?_, ?_, ?_⟩ <;>
    unfold runSubmission <;>
    cases ht : riskTier (predicted_prob m inp.obs) <;>
    cases hf : env.shapFails <;>
    simp [ht, hf, hsave, hdb, add_to_database, tierMessage]

/-- Witness for C5 at a concrete submission with a failing store. -/
theorem C5_witness :
    (add_to_database (Env.dbFails ⟨"t", false, true⟩)
        (log_row "t" obs0 (predicted_prob (stubModel (83/100)) obs0))).2 = false ∧
    Effect.showError "Database Error" ∈
      runSubmission (some (stubModel (83/100))) ⟨"t", false, true⟩ ⟨obs0, true⟩ ∧
    (∀ row, Effect.appendRow row ∉
      runSubmission (some (stubModel (83/100))) ⟨"t", false, true⟩ ⟨obs0, true⟩) ∧
    (runSubmission (some (stubModel (83/100))) ⟨"t", false, true⟩ ⟨obs0, true⟩).take 2 =
      [Effect.showMetric "Dialysis Probability"
         (formatPercent1 (predicted_prob (stubModel (83/100)) obs0)),
       tierMessage (predicted_prob (stubModel (83/100)) obs0)] ∧
    (runSubmission (some (stubModel (83/100))) ⟨"t", false, true⟩ ⟨obs0, true⟩).take 2 =
      (runSubmission (some (stubModel (83/100))) ⟨"t", false, false⟩ ⟨obs0, true⟩).take 2 :=
  C5_db_failure_isolated (stubModel (83/100)) ⟨"t", false, true⟩ ⟨obs0, true⟩ rfl rfl

/-- C6: with the save option disabled no store interaction happens at
all: no row append, no database error, no save toast, for any model and
any prediction outcome. -/
theorem C6_save_disabled_no_store_call (model : Option Model) (env : Env)
    (inp : SubmitInput) (h : inp.save_data = false) :
    (∀ row, Effect.appendRow row ∉ runSubmission model env inp) ∧
    Effect.showError "Database Error" ∉ runSubmission model env inp ∧
    (∀ msg, Effect.showToast msg ∉ runSubmission model env inp) := by
  cases model with
  | none => refine ⟨?_, ?_, ?_⟩ <;> simp [runSubmission]
  | some m =>
    refine ⟨?_, ?_, ?_⟩ <;>
      unfold runSubmission <;>
      cases ht : riskTier (predicted_prob m inp.obs) <;>
      cases hf : env.shapFails <;>
      simp [ht, hf, h, tierMessage]

/-- Witness for C6 at a concrete submission with saving disabled. -/
theorem C6_witness :
    (∀ row, Effect.appendRow row ∉
      runSubmission (some (stubModel (83/100))) env0 ⟨obs0, false⟩) ∧
    Effect.showError "Database Error" ∉
      runSubmission (some (stubModel (83/100))) env0 ⟨obs0, false⟩ ∧
    (∀ msg, Effect.showToast msg ∉
      runSubmission (some (stubModel (83/100))) env0 ⟨obs0, false⟩) :=
  C6_save_disabled_no_store_call (some (stubModel (83/100))) env0 ⟨obs0, false⟩ rfl

/-- C8: when the explanation step raises, a warning is shown, the
already-computed metric and tier effects stand unchanged, and the
logging step behaves exactly as in the run where the explanation
succeeds. -/
theorem C8_explanation_failure_isolated (m : Model) (env : Env)
    (inp : SubmitInput) (hshap : env.shapFails = true) :
    Effect.showWarning "Could not generate explanation graph" ∈
      runSubmission (some m) env inp ∧
    (runSubmission (some m) env inp).take 2 =
      [Effect.showMetric "Dialysis Probability"
         (formatPercent1 (predicted_prob m inp.obs)),
       tierMessage (predicted_prob m inp.obs)] ∧
    (runSubmission (some m) env inp).drop 3 =
      (runSubmission (some m) ⟨env.timestamp, false, env.dbFails⟩ inp).drop 3 := by
  refine ⟨?_, ?_, ?_⟩ <;>
    unfold runSubmission <;>
    simp [hshap]

/-- Witness for C8 at a concrete submission with a failing explainer. -/
theorem C8_witness :
    Effect.showWarning "Could not generate explanation graph" ∈
      runSubmission (some (stubModel (83/100))) ⟨"t", true, false⟩ ⟨obs0, true⟩ ∧
    (runSubmission (some (stubModel (83/100))) ⟨"t", true, false⟩ ⟨obs0, true⟩).take 2 =
      [Effect.showMetric "Dialysis Probability"
         (formatPercent1 (predicted_prob (stubModel (83/100)) obs0)),
       tierMessage (predicted_prob (stubModel (83/100)) obs0)] ∧
    (runSubmission (some (stubModel (83/100))) ⟨"t", true, false⟩ ⟨obs0, true⟩).drop 3 =
      (runSubmission (some (stubModel (83/100))) ⟨"t", false, false⟩ ⟨obs0, true⟩).drop 3 :=
  C8_explanation_failure_isolated (stubModel (83/100)) ⟨"t", true, false⟩ ⟨obs0, true⟩ rfl


/-- Helper: looking up a key that occurs in the frame succeeds. -/
lemma lookup_isSome_of_mem_keys (df : List (String × ℚ)) (n : String)
    (h : n ∈ df.map Prod.fst) : (df.lookup n).isSome = true := by
  induction df with
  | nil => simp at h
  | cons p t ih =>
    obtain ⟨k, v⟩ := p
    rw [List.map_cons, List.mem_cons] at h
    by_cases hk : n = k
    · simp [hk, List.lookup_cons]
    · have hm : n ∈ t.map Prod.fst := h.resolve_left hk
      simpa [List.lookup_cons, beq_false_of_ne hk] using ih hm

/-- Helper: rebuilding a frame with distinct keys by looking up its own
key sequence returns the frame itself. -/
lemma map_lookup_keys (df : List (String × ℚ))
    (h : (df.map Prod.fst).Nodup) :
    (df.map Prod.fst).map (fun n => (n, (df.lookup n).getD 0)) = df := by
  induction df with
  | nil => rfl
  | cons p t ih =>
    obtain ⟨k, v⟩ := p
    rw [List.map_cons, List.nodup_cons] at h
    obtain ⟨hk, ht⟩ := h
    have hstep :
        (t.map Prod.fst).map (fun n => (n, ((((k, v) :: t).lookup n).getD 0))) =
        (t.map Prod.fst).map (fun n => (n, ((t.lookup n).getD 0))) := by
      apply List.map_congr_left
      intro n hn
      have hne : n ≠ k := fun e => hk (e ▸ hn)
      simp [List.lookup_cons, beq_false_of_ne hne]
    rw [List.map_cons, List.map_cons]
    congr 1
    · simp [List.lookup_cons]
    · rw [hstep, ih ht]

/-- C7: reindexing a feature frame by its own column order (the case
where the frame is already in the order the model expects) returns the
frame unchanged. -/
theorem C7_reorder_idempotent (df : List (String × ℚ)) (ns : List String)
    (horder : df.map Prod.fst = ns) (hnodup : ns.Nodup) :
    applyReorder df (some ns) = df := by
  subst horder
  have hall : (df.map Prod.fst).all (fun n => (df.lookup n).isSome) = true := by
    rw [List.all_eq_true]
    intro n hn
    exact lookup_isSome_of_mem_keys df n hn
  have hred : applyReorder df (some (df.map Prod.fst)) =
      (reorderColumns df (df.map Prod.fst)).getD df := rfl
  rw [hred]
  unfold reorderColumns
  rw [if_pos hall, Option.getD_some]
  exact map_lookup_keys df hnodup

/-- Witness for C7 at the concrete feature frame of the fixed
observation. -/
theorem C7_witness :
    applyReorder (input_data obs0) (some ((input_data obs0).map Prod.fst)) =
      input_data obs0 :=
  C7_reorder_idempotent (input_data obs0) ((input_data obs0).map Prod.fst) rfl
    (by simp [input_data])

end NephroApp
